import Mathlib

/-!
Shallow embedding of `actions.py` (a Rasa action server for a reclamation /
ticketing workflow): the four slot validators of `ValidateReclamationForm`,
the payload construction and response classification of
`ActionSubmitReclamation.run`, and the response classification of
`ActionTrackReclamation.run`.

Python strings are modelled as Lean `String`; an absent slot value is
`Option.none`.  The Python string primitives used by the source
(`strip`, `in`, `isdigit`, `upper`, `capitalize`, slicing) are modelled
directly over the underlying character list so that every definition is
kernel-computable.  A validator returns the pair (slot mapping for its
field, list of user-facing messages emitted through the dispatcher).
HTTP outcomes are a sum type: timeout, other transport failure, or a
response carrying a status code and an optional parsed body (`none`
models a body on which `.json()` raises).
-/

/-- Python `str.strip()`: remove whitespace from both ends. -/
def pyStrip (s : String) : String :=
  ⟨((s.data.dropWhile Char.isWhitespace).reverse.dropWhile Char.isWhitespace).reverse⟩

/-- Python `len(s)`: number of characters. -/
def pyLen (s : String) : Nat := s.data.length

/-- Python `c in s` for a single-character pattern `c`. -/
def pyCharIn (c : Char) (s : String) : Bool := s.data.contains c

/-- Python `str.isdigit` (restricted to the ASCII digits that occur in this
program): true on a non-empty string all of whose characters are digits. -/
def pyIsDigit (s : String) : Bool :=
  !s.data.isEmpty && s.data.all Char.isDigit

/-- Python `str.upper` (ASCII letters). -/
def pyUpper (s : String) : String := ⟨s.data.map Char.toUpper⟩

/-- Python `str.capitalize` (ASCII letters): first character upper-cased,
the rest lower-cased. -/
def pyCapitalize (s : String) : String :=
  match s.data with
  | [] => ""
  | c :: cs => ⟨c.toUpper :: cs.map Char.toLower⟩

/-- Python `s[:n]`: the first `n` characters. -/
def pyTake (s : String) (n : Nat) : String := ⟨s.data.take n⟩

/-- Number of decimal-digit characters of a string:
`len("".join(filter(str.isdigit, s)))`. -/
def digitCount (s : String) : Nat :=
  (s.data.filter Char.isDigit).length

/-- Python truthiness-and-blankness guard used by the validators:
`not slot_value or not str(slot_value).strip()`. -/
def pyBlank : Option String → Bool
  | none => true
  | some s => s == "" || pyStrip s == ""

/-- `ValidateReclamationForm.validate_email`. -/
def validate_email : Option String → Option String × List String
  | none => (none, [])
  | some v =>
    if v = "" ∨ pyStrip v = "" then (none, [])
    else
      let email := pyStrip v
      if pyCharIn '@' email = false ∨ pyCharIn '.' email = false then
        (none, ["Please provide a valid email address (e.g., name@example.com)."])
      else
        (some email, [])

/-- `ValidateReclamationForm.validate_phone`. -/
def validate_phone : Option String → Option String × List String
  | none => (none, [])
  | some v =>
    if v = "" ∨ pyStrip v = "" then (none, [])
    else
      let phone := pyStrip v
      if digitCount phone < 5 then
        (none, ["Please provide a valid phone number with at least 5 digits."])
      else
        (some phone, [])

/-- `ValidateReclamationForm.validate_username`.  Note that the first guard
(`not slot_value or len(str(slot_value).strip()) < 2`) already emits the
rejection message, so an absent or blank value is rejected with a message. -/
def validate_username : Option String → Option String × List String
  | none => (none, ["Please provide a valid username (at least 2 characters)."])
  | some v =>
    if v = "" ∨ pyLen (pyStrip v) < 2 then
      (none, ["Please provide a valid username (at least 2 characters)."])
    else
      let username := pyStrip v
      if pyIsDigit username then
        (none, ["That looks like an ID. Please provide your username instead."])
      else
        (some username, [])

/-- `ValidateReclamationForm.validate_reclamation_message`.  As with the
username, the guard emits the message also for absent or blank input. -/
def validate_reclamation_message : Option String → Option String × List String
  | none => (none, ["Please provide more details about your issue (at least 10 characters)."])
  | some v =>
    if v = "" ∨ pyLen (pyStrip v) < 10 then
      (none, ["Please provide more details about your issue (at least 10 characters)."])
    else
      (some (pyStrip v), [])

/-- Values occurring in the JSON bodies this program reads: strings and
integers (the backend sends an integer `id` and string labels). -/
inductive PyVal where
  | pstr (s : String)
  | pint (n : Int)
deriving DecidableEq

/-- Python `str(v)` on a JSON value. -/
def PyVal.toStr : PyVal → String
  | .pstr s => s
  | .pint n => toString n

/-- A parsed JSON object, as the association list of its entries. -/
abbrev Json := List (String × PyVal)

/-- Python `dict.get(key, default)`. -/
def jsonGet : Json → String → PyVal → PyVal
  | [], _, d => d
  | kv :: rest, key, d => if kv.1 = key then kv.2 else jsonGet rest key d

/-- Membership of a key in a JSON object. -/
def jsonHasKey : Json → String → Bool
  | [], _ => false
  | kv :: rest, key => kv.1 == key || jsonHasKey rest key

/-- Crude rendering of a JSON object, standing in for Python interpolating
a dict into an f-string (`f"... Details: {error_json}"`).  No claim
depends on its exact shape. -/
def jsonRepr (j : Json) : String :=
  "\x7b" ++ String.intercalate ", " (j.map fun kv => kv.1 ++ ": " ++ kv.2.toStr) ++ "\x7d"

/-- Events returned to the conversation tracker; the only one this code
produces is `SlotSet`. -/
inductive Event where
  | slotSet (slot : String) (value : String)
deriving DecidableEq

/-- Outcome of the single outbound HTTP call: timeout, another transport
failure, or a response with a status code and an optional parsed body
(`none` models a body on which `response.json()` raises). -/
inductive HttpOutcome where
  | timeout
  | connectionError
  | response (status : Nat) (body : Option Json)

/-- Module-level base URL with the environment variable unset:
`os.environ.get("DJANGO_API_BASE", "http://127.0.0.1:8000/api").rstrip("/")`. -/
def DJANGO_API_BASE : String := "http://127.0.0.1:8000/api"

/-- The slots read by `ActionSubmitReclamation.run`. -/
structure SlotState where
  username : Option String
  reclamation_message : Option String
  email : Option String
  phone : Option String

/-- Python `x if x else d` / `x or d` on an optional string slot. -/
def pyOrStr (v : Option String) (d : String) : String :=
  match v with
  | none => d
  | some s => if s = "" then d else s

/-- Python truthiness of `v and str(v).strip()` on an optional string. -/
def pyTruthyTrim : Option String → Bool
  | none => false
  | some s => !(s == "") && !(pyStrip s == "")

/-- The optional-field logic `if v and str(v).strip(): data[k] = str(v).strip()`:
the stored value when the key is added. -/
def optTrimmed (v : Option String) : Option String :=
  match v with
  | none => none
  | some s => if s = "" then none else if pyStrip s = "" then none else some (pyStrip s)

/-- The ticket payload `data` built by `ActionSubmitReclamation.run`:
required `username`/`message` with their defaults, the two fixed channel
tags, and the optional `email`/`phone` keys (`none` = key absent). -/
structure TicketPayload where
  username : String
  message : String
  category : String
  location : String
  email : Option String
  phone : Option String

/-- Payload construction from the slots (lines 98-114 of `actions.py`). -/
def build_data (t : SlotState) : TicketPayload :=
  ⟨pyOrStr t.username "Anonymous",
   pyOrStr t.reclamation_message "",
   "Rasa Bot",
   "Rasa Chat Interface",
   optTrimmed t.email,
   optTrimmed t.phone⟩

/-- Python `str(v)` on an optional string (`str(None) = "None"`), as used in
`str(reclamation_message)[:100]`. -/
def pyStrOfOpt : Option String → String
  | none => "None"
  | some s => s

/-- The `contact_info` accumulator of the success branch. -/
def contact_info (email phone : Option String) : String :=
  (if pyTruthyTrim email then "\n📧 Email: " ++ email.getD "" else "") ++
  (if pyTruthyTrim phone then "\n📞 Phone: " ++ phone.getD "" else "")

/-- The `success_message` f-string of the 201 branch, grouped into four
appended segments (identifier line, username line, and the priority /
sentiment tail kept as their own segments). -/
def success_message (contact rec_id uname : String) (reclamation_message : Option String)
    (priority sentiment : String) : String :=
  ("✅ Reclamation submitted successfully!" ++ contact ++ "\n\n") ++
  ("📋 Reclamation ID: #" ++ rec_id ++ "\n") ++
  ("👤 Username: " ++ uname ++ "\n" ++ "📝 Issue: " ++
    pyTake (pyStrOfOpt reclamation_message) 100 ++ "...\n") ++
  ("🚨 Priority: " ++ priority ++ "\n" ++ "😊 Sentiment: " ++ sentiment ++ "\n\n" ++
    "We will review your issue and contact you soon.")

/-- Response classification of `ActionSubmitReclamation.run`: given the
slots and the outcome of the one `POST {base}/reclamations/add/` call,
the messages uttered and the events returned.  An unparseable body in the
201 branch makes `response.json()` raise, which the outer
`except Exception` turns into the generic could-not-connect message. -/
def action_submit_run (t : SlotState) (outcome : HttpOutcome) : List String × List Event :=
  match outcome with
  | .timeout => (["❌ Django API timeout. Please try again later."], [])
  | .connectionError =>
      (["❌ Could not connect to the Django server. Please try again later."], [])
  | .response status body =>
    if status = 201 then
      match body with
      | none => (["❌ Could not connect to the Django server. Please try again later."], [])
      | some response_data =>
        let rec_id := (jsonGet response_data "id" (.pstr "Unknown")).toStr
        let priority := pyUpper (jsonGet response_data "priority" (.pstr "normal")).toStr
        let sentiment := pyCapitalize (jsonGet response_data "sentiment" (.pstr "neutral")).toStr
        ([success_message (contact_info t.email t.phone) rec_id
            (pyOrStr t.username "Anonymous") t.reclamation_message priority sentiment],
         [Event.slotSet "reclamation_id" rec_id])
    else
      match body with
      | some error_json =>
        (["❌ Error submitting reclamation (HTTP " ++ toString status ++ "). Details: " ++
            jsonRepr error_json], [])
      | none =>
        (["❌ Error submitting reclamation (HTTP " ++ toString status ++ "). Please try again."],
         [])

/-- Output of the tracking handler: messages, events, and the URL of the
outbound GET when one was issued (`none` when the handler stopped at the
missing-id prompt). -/
structure TrackOutput where
  messages : List String
  events : List Event
  requestedUrl : Option String
deriving DecidableEq

/-- The 200-branch status message of `ActionTrackReclamation.run`. -/
def track_status_message (rid : String) (d : Json) : String :=
  "📊 Reclamation #" ++ (jsonGet d "id" (.pstr rid)).toStr ++ "\n" ++
  "Status: " ++ (jsonGet d "status" (.pstr "unknown")).toStr ++ "\n" ++
  "Priority: " ++ (jsonGet d "priority" (.pstr "normal")).toStr ++ "\n" ++
  "Sentiment: " ++ (jsonGet d "sentiment" (.pstr "neutral")).toStr ++ "\n" ++
  "Message: " ++ pyTake (jsonGet d "message" (.pstr "")).toStr 150

/-- `ActionTrackReclamation.run`: every branch returns an empty event list;
the GET to `{base}/reclamations/{id}/` is issued exactly when the slot is
truthy.  As in the submission handler, a 200 response whose body fails to
parse falls into the outer `except Exception` branch. -/
def action_track_run (reclamation_id : Option String) (outcome : HttpOutcome) : TrackOutput :=
  match reclamation_id with
  | none => ⟨["Please provide your reclamation ID."], [], none⟩
  | some rid =>
    if rid = "" then ⟨["Please provide your reclamation ID."], [], none⟩
    else
      let url := DJANGO_API_BASE ++ "/reclamations/" ++ rid ++ "/"
      let msgs : List String :=
        match outcome with
        | .timeout => ["❌ Django API timeout while tracking. Please try again later."]
        | .connectionError =>
            ["❌ Could not connect to the Django server. Please try again later."]
        | .response status body =>
          if status = 200 then
            match body with
            | some d => [track_status_message rid d]
            | none => ["❌ Could not connect to the Django server. Please try again later."]
          else if status = 404 then
            ["❌ No reclamation found with that ID."]
          else
            ["❌ Tracking error (HTTP " ++ toString status ++ "). Please try again."]
      ⟨msgs, [], some url⟩


/-- Prefix test on character lists (does `pat` start `l`?). -/
def hasPre : List Char → List Char → Bool
  | [], _ => true
  | _ :: _, [] => false
  | p :: ps, c :: cs => p == c && hasPre ps cs

/-- Substring test on character lists (does `pat` occur contiguously in `l`?). -/
def hasSub : List Char → List Char → Bool
  | pat, [] => hasPre pat []
  | pat, c :: cs => hasPre pat (c :: cs) || hasSub pat cs

/-- Substring containment on strings, used to state which fragments a
user-facing message carries. -/
def strContains (s pat : String) : Bool := hasSub pat.data s.data

theorem hasPre_append (pat l l2 : List Char) (h : hasPre pat l = true) :
    hasPre pat (l ++ l2) = true := by
  induction pat generalizing l with
  | nil => simp [hasPre]
  | cons p ps ih =>
    cases l with
    | nil => simp [hasPre] at h
    | cons c cs =>
      simp only [hasPre, Bool.and_eq_true] at h
      simp only [List.cons_append, hasPre, Bool.and_eq_true]
      exact ⟨h.1, ih cs h.2⟩

theorem hasSub_nil_pat (l : List Char) : hasSub [] l = true := by
  cases l <;> simp [hasSub, hasPre]

theorem hasSub_append_right (pat l l2 : List Char) (h : hasSub pat l = true) :
    hasSub pat (l ++ l2) = true := by
  induction l with
  | nil =>
    cases pat with
    | nil => simpa using hasSub_nil_pat l2
    | cons p ps => simp [hasSub, hasPre] at h
  | cons c cs ih =>
    simp only [hasSub, Bool.or_eq_true] at h
    simp only [List.cons_append, hasSub, Bool.or_eq_true]
    rcases h with h | h
    · exact Or.inl (hasPre_append _ _ _ h)
    · exact Or.inr (ih h)

theorem hasSub_append_left (pat l1 l : List Char) (h : hasSub pat l = true) :
    hasSub pat (l1 ++ l) = true := by
  induction l1 with
  | nil => simpa using h
  | cons c cs ih =>
    simp only [List.cons_append, hasSub, Bool.or_eq_true]
    exact Or.inr ih

theorem strContains_append_right (s t pat : String) (h : strContains s pat = true) :
    strContains (s ++ t) pat = true := by
  unfold strContains at h ⊢
  rw [String.data_append]
  exact hasSub_append_right _ _ _ h

theorem strContains_append_left (s t pat : String) (h : strContains t pat = true) :
    strContains (s ++ t) pat = true := by
  unfold strContains at h ⊢
  rw [String.data_append]
  exact hasSub_append_left _ _ _ h

theorem jsonGet_not_found (j : Json) (k : String) (d : PyVal)
    (h : jsonHasKey j k = false) : jsonGet j k d = d := by
  induction j with
  | nil => rfl
  | cons kv rest ih =>
    simp only [jsonHasKey, Bool.or_eq_false_iff, beq_eq_false_iff_ne, ne_eq] at h
    simp only [jsonGet, if_neg h.1]
    exact ih h.2

/-- C1 counterexample: the claim says every validator resolves a
whitespace-only input to the absence-marker with no user-facing message,
but `validate_username` emits its correction message on `"   "` (its guard
`not slot_value or len(str(slot_value).strip()) < 2` lumps blank input
together with too-short input and utters before returning). -/
theorem C1_counterexample :
    (validate_username (some "   ")).1 = none ∧ (validate_username (some "   ")).2 ≠ [] := by
  decide

/-- C1 (amended): for every input whose trimmed form is empty (absent or
whitespace-only), `validate_email` and `validate_phone` resolve to the
absence-marker silently, while `validate_username` and
`validate_reclamation_message` also resolve to the absence-marker but do
emit their correction message. -/
theorem C1_blank_input (v : Option String) (h : pyBlank v = true) :
    validate_email v = (none, []) ∧ validate_phone v = (none, []) ∧
    validate_username v =
      (none, ["Please provide a valid username (at least 2 characters)."]) ∧
    validate_reclamation_message v =
      (none, ["Please provide more details about your issue (at least 10 characters)."]) := by
  cases v with
  | none => exact ⟨rfl, rfl, rfl, rfl⟩
  | some s =>
    simp only [pyBlank, Bool.or_eq_true, beq_iff_eq] at h
    have hts : pyStrip s = "" := by
      rcases h with h | h
      · rw [h]; rfl
      · exact h
    have hlen : pyLen (pyStrip s) = 0 := by rw [hts]; rfl
    refine ⟨?_, ?_, ?_, ?_⟩
    · simp [validate_email, hts]
    · simp [validate_phone, hts]
    · simp [validate_username, hlen]
    · simp [validate_reclamation_message, hlen]

/-- C1 witness: the amended statement at the concrete blank input `" "`. -/
theorem C1_blank_input_witness :
    validate_email (some " ") = (none, []) ∧ validate_phone (some " ") = (none, []) ∧
    validate_username (some " ") =
      (none, ["Please provide a valid username (at least 2 characters)."]) ∧
    validate_reclamation_message (some " ") =
      (none, ["Please provide more details about your issue (at least 10 characters)."]) :=
  C1_blank_input (some " ") (by decide)

/-- C3 counterexample: the empty input has fewer than 5 digit characters,
so by the claim it should be mapped to `None` *and* draw a correction
message; the code maps it to `None` but emits nothing. -/
theorem C3_counterexample :
    digitCount (pyStrip "") < 5 ∧ validate_phone (some "") = (none, []) := by
  decide

/-- C3 (amended): `validate_phone` accepts exactly when the trimmed input
contains at least 5 decimal-digit characters, and the accepted value is
the trimmed original string with non-digit characters retained; a
present-but-invalid value is mapped to `None` with a correction message,
while an absent or blank input is mapped to `None` silently. -/
theorem C3_validate_phone (s : String) :
    (pyStrip s = "" → validate_phone (some s) = (none, [])) ∧
    (pyStrip s ≠ "" → 5 ≤ digitCount (pyStrip s) →
        validate_phone (some s) = (some (pyStrip s), [])) ∧
    (pyStrip s ≠ "" → digitCount (pyStrip s) < 5 →
        validate_phone (some s) =
          (none, ["Please provide a valid phone number with at least 5 digits."])) ∧
    validate_phone none = (none, []) := by
  refine ⟨?_, ?_, ?_, rfl⟩
  · intro h
    simp [validate_phone, h]
  · intro h h5
    have hs : s ≠ "" := fun he => h (by rw [he]; rfl)
    simp [validate_phone, hs, h, Nat.not_lt.mpr h5]
  · intro h h5
    have hs : s ≠ "" := fun he => h (by rw [he]; rfl)
    simp [validate_phone, hs, h, h5]

/-- C3 witness: `" 12-345 "` is accepted and normalizes to the trimmed
original `"12-345"`; `"call 911!"` is rejected with the correction
message. -/
theorem C3_validate_phone_witness :
    validate_phone (some " 12-345 ") = (some "12-345", []) ∧
    validate_phone (some "call 911!") =
      (none, ["Please provide a valid phone number with at least 5 digits."]) :=
  ⟨(C3_validate_phone " 12-345 ").2.1 (by decide) (by decide),
   (C3_validate_phone "call 911!").2.2.1 (by decide) (by decide)⟩

/-- C6: for every input that is present (non-empty after trimming),
`validate_email` accepts with the trimmed value exactly when the trimmed
value contains both an `@` and a `.`, and otherwise maps the email field
to `None` with the correction prompt. -/
theorem C6_validate_email (s : String) (h : pyStrip s ≠ "") :
    (pyCharIn '@' (pyStrip s) = true → pyCharIn '.' (pyStrip s) = true →
        validate_email (some s) = (some (pyStrip s), [])) ∧
    ((pyCharIn '@' (pyStrip s) = false ∨ pyCharIn '.' (pyStrip s) = false) →
        validate_email (some s) =
          (none, ["Please provide a valid email address (e.g., name@example.com)."])) := by
  have hs : s ≠ "" := fun he => h (by rw [he]; rfl)
  constructor
  · intro h1 h2
    simp [validate_email, hs, h, h1, h2]
  · intro h12
    rcases h12 with h1 | h1 <;> simp [validate_email, hs, h, h1]

/-- C6 witness: `"user@x.com"` resolves to itself, `"notanemail"` is
rejected with the prompt. -/
theorem C6_validate_email_witness :
    validate_email (some "user@x.com") = (some "user@x.com", []) ∧
    validate_email (some "notanemail") =
      (none, ["Please provide a valid email address (e.g., name@example.com)."]) :=
  ⟨(C6_validate_email "user@x.com" (by decide)).1 (by decide) (by decide),
   (C6_validate_email "notanemail" (by decide)).2 (Or.inl (by decide))⟩

/-- C7: for every input that is present (non-empty after trimming),
`validate_username` accepts with the trimmed value exactly when the
trimmed value has length at least 2 and is not entirely composed of
digits; too-short and entirely-numeric values are mapped to `None` with a
correction message. -/
theorem C7_validate_username (s : String) (h : pyStrip s ≠ "") :
    (2 ≤ pyLen (pyStrip s) → pyIsDigit (pyStrip s) = false →
        validate_username (some s) = (some (pyStrip s), [])) ∧
    (pyLen (pyStrip s) < 2 →
        validate_username (some s) =
          (none, ["Please provide a valid username (at least 2 characters)."])) ∧
    (2 ≤ pyLen (pyStrip s) → pyIsDigit (pyStrip s) = true →
        validate_username (some s) =
          (none, ["That looks like an ID. Please provide your username instead."])) := by
  have hs : s ≠ "" := fun he => h (by rw [he]; rfl)
  refine ⟨?_, ?_, ?_⟩
  · intro h2 hd
    simp [validate_username, hs, Nat.not_lt.mpr h2, hd]
  · intro h2
    simp [validate_username, h2]
  · intro h2 hd
    simp [validate_username, hs, Nat.not_lt.mpr h2, hd]

/-- C7 witness: the entirely-numeric `"12345"` is rejected and `"Jo"` is
accepted. -/
theorem C7_validate_username_witness :
    validate_username (some "12345") =
      (none, ["That looks like an ID. Please provide your username instead."]) ∧
    validate_username (some "Jo") = (some "Jo", []) :=
  ⟨(C7_validate_username "12345" (by decide)).2.2 (by decide) (by decide),
   (C7_validate_username "Jo" (by decide)).1 (by decide) (by decide)⟩

/-- C4: on a timeout of the outbound create request the submission handler
emits exactly the generic timeout message and returns an empty event list.
The embedding consumes a single `HttpOutcome`, reflecting that the source
issues exactly one request and never retries. -/
theorem C4_submit_timeout (t : SlotState) :
    action_submit_run t .timeout =
      (["❌ Django API timeout. Please try again later."], []) := rfl

/-- C4 witness: the timeout classification at a concrete slot state. -/
theorem C4_submit_timeout_witness :
    action_submit_run ⟨none, none, none, none⟩ .timeout =
      (["❌ Django API timeout. Please try again later."], []) :=
  C4_submit_timeout ⟨none, none, none, none⟩

/-- C5: when the tracking read returns status 404 (for any present
reclamation id and any body), the handler emits exactly the
"no reclamation found" message, returns no events, and its only side
effect was the single GET it had already issued. -/
theorem C5_track_404 (rid : String) (h : rid ≠ "") (body : Option Json) :
    action_track_run (some rid) (.response 404 body) =
      ⟨["❌ No reclamation found with that ID."], [],
        some (DJANGO_API_BASE ++ "/reclamations/" ++ rid ++ "/")⟩ := by
  simp [action_track_run, h]

/-- C5 witness: the 404 classification at the concrete id `"42"`. -/
theorem C5_track_404_witness :
    action_track_run (some "42") (.response 404 none) =
      ⟨["❌ No reclamation found with that ID."], [],
        some (DJANGO_API_BASE ++ "/reclamations/" ++ "42" ++ "/")⟩ :=
  C5_track_404 "42" (by decide) none

/-- C9: a 201 response whose body cannot be parsed makes `response.json()`
raise inside the 201 branch; the outer `except Exception` then emits the
generic could-not-connect message (not the submission-error or success
message) and the handler returns an empty event list, so no ticket-id
slot update occurs. -/
theorem C9_created_unparseable (t : SlotState) :
    action_submit_run t (.response 201 none) =
      (["❌ Could not connect to the Django server. Please try again later."], []) := rfl

/-- C9 witness: the unparseable-201 classification at a concrete slot
state. -/
theorem C9_created_unparseable_witness :
    action_submit_run ⟨none, none, none, none⟩ (.response 201 none) =
      (["❌ Could not connect to the Django server. Please try again later."], []) :=
  C9_created_unparseable ⟨none, none, none, none⟩

/-- C2: a 201 response with body `{"id": 42, "priority": "high",
"sentiment": "negative"}` produces, for every slot state, exactly one
success message — containing `#42`, the upper-cased `HIGH` and the
capitalized `Negative` — and exactly one event, setting the
`reclamation_id` slot to the string `"42"`. -/
theorem C2_submit_created (t : SlotState) :
    ∃ m, action_submit_run t (.response 201
        (some [("id", PyVal.pint 42), ("priority", PyVal.pstr "high"),
               ("sentiment", PyVal.pstr "negative")])) =
        ([m], [Event.slotSet "reclamation_id" "42"]) ∧
      strContains m "#42" = true ∧ strContains m "HIGH" = true ∧
      strContains m "Negative" = true := by
  refine ⟨success_message (contact_info t.email t.phone) "42"
      (pyOrStr t.username "Anonymous") t.reclamation_message "HIGH" "Negative",
    rfl, ?_, ?_, ?_⟩
  · exact strContains_append_right _ _ _ (strContains_append_right _ _ _
      (strContains_append_left _ _ _ (by decide)))
  · exact strContains_append_left _ _ _ (by decide)
  · exact strContains_append_left _ _ _ (by decide)

/-- C2 witness: the 201 classification at a concrete slot state. -/
theorem C2_submit_created_witness :
    ∃ m, action_submit_run ⟨none, none, none, none⟩ (.response 201
        (some [("id", PyVal.pint 42), ("priority", PyVal.pstr "high"),
               ("sentiment", PyVal.pstr "negative")])) =
        ([m], [Event.slotSet "reclamation_id" "42"]) ∧
      strContains m "#42" = true ∧ strContains m "HIGH" = true ∧
      strContains m "Negative" = true :=
  C2_submit_created ⟨none, none, none, none⟩

/-- C10: a 201 response whose parseable body lacks an `id` key still takes
the success path: the success message contains `#Unknown`, the single
event sets the `reclamation_id` slot to the literal `"Unknown"`, and a
later tracking call with that slot issues its GET against
`.../reclamations/Unknown/`. -/
theorem C10_missing_id (t : SlotState) (body : Json) (h : jsonHasKey body "id" = false)
    (outcome : HttpOutcome) :
    (∃ m, action_submit_run t (.response 201 (some body)) =
        ([m], [Event.slotSet "reclamation_id" "Unknown"]) ∧
      strContains m "#Unknown" = true) ∧
    (action_track_run (some "Unknown") outcome).requestedUrl =
      some (DJANGO_API_BASE ++ "/reclamations/Unknown/") := by
  constructor
  · refine ⟨success_message (contact_info t.email t.phone) "Unknown"
        (pyOrStr t.username "Anonymous") t.reclamation_message
        (pyUpper (jsonGet body "priority" (.pstr "normal")).toStr)
        (pyCapitalize (jsonGet body "sentiment" (.pstr "neutral")).toStr), ?_, ?_⟩
    · have hid : jsonGet body "id" (.pstr "Unknown") = .pstr "Unknown" :=
        jsonGet_not_found body "id" _ h
      simp [action_submit_run, hid, PyVal.toStr]
    · exact strContains_append_right _ _ _ (strContains_append_right _ _ _
        (strContains_append_left _ _ _ (by decide)))
  · rfl

/-- C10 witness: a body with only a `priority` key, at a concrete slot
state and a concrete later tracking outcome. -/
theorem C10_missing_id_witness :
    (∃ m, action_submit_run ⟨none, none, none, none⟩
        (.response 201 (some [("priority", PyVal.pstr "high")])) =
        ([m], [Event.slotSet "reclamation_id" "Unknown"]) ∧
      strContains m "#Unknown" = true) ∧
    (action_track_run (some "Unknown") .timeout).requestedUrl =
      some (DJANGO_API_BASE ++ "/reclamations/Unknown/") :=
  C10_missing_id ⟨none, none, none, none⟩ [("priority", PyVal.pstr "high")] (by decide) .timeout

/-- C8: for every validated slot set (present values are never the empty
string, since the validators only ever store non-empty trimmed values),
the payload has `username` defaulting to `"Anonymous"`, `message`
defaulting to `""`, the two fixed channel tags, and the `email`/`phone`
keys present exactly when the slot is present and non-empty after
trimming. -/
theorem C8_build_payload (t : SlotState) (hu : t.username ≠ some "")
    (hm : t.reclamation_message ≠ some "") :
    (build_data t).username = t.username.getD "Anonymous" ∧
    (build_data t).message = t.reclamation_message.getD "" ∧
    (build_data t).category = "Rasa Bot" ∧
    (build_data t).location = "Rasa Chat Interface" ∧
    ((build_data t).email.isSome = true ↔ ∃ s, t.email = some s ∧ pyStrip s ≠ "") ∧
    ((build_data t).phone.isSome = true ↔ ∃ s, t.phone = some s ∧ pyStrip s ≠ "") := by
  obtain ⟨u, rm, e, p⟩ := t
  refine ⟨?_, ?_, rfl, rfl, ?_, ?_⟩
  · cases u with
    | none => rfl
    | some s =>
      have hs : s ≠ "" := by
        intro he
        exact hu (by rw [he])
      simp [build_data, pyOrStr, hs]
  · cases rm with
    | none => rfl
    | some s =>
      have hs : s ≠ "" := by
        intro he
        exact hm (by rw [he])
      simp [build_data, pyOrStr, hs]
  · cases e with
    | none => simp [build_data, optTrimmed]
    | some s =>
      by_cases h1 : s = ""
      · subst h1
        simp [build_data, optTrimmed]
        rfl
      · by_cases h2 : pyStrip s = ""
        · simp [build_data, optTrimmed, h1, h2]
        · simp [build_data, optTrimmed, h1, h2]
  · cases p with
    | none => simp [build_data, optTrimmed]
    | some s =>
      by_cases h1 : s = ""
      · subst h1
        simp [build_data, optTrimmed]
        rfl
      · by_cases h2 : pyStrip s = ""
        · simp [build_data, optTrimmed, h1, h2]
        · simp [build_data, optTrimmed, h1, h2]

/-- C8 witness: a concrete validated slot set with a present username, an
absent message, an email that trims to a non-empty value, and a phone
that trims to empty (so its key is dropped). -/
theorem C8_build_payload_witness :
    (build_data ⟨some "Jo", none, some " a@b.c ", some "  "⟩).username =
      (some "Jo" : Option String).getD "Anonymous" ∧
    (build_data ⟨some "Jo", none, some " a@b.c ", some "  "⟩).message =
      (none : Option String).getD "" ∧
    (build_data ⟨some "Jo", none, some " a@b.c ", some "  "⟩).category = "Rasa Bot" ∧
    (build_data ⟨some "Jo", none, some " a@b.c ", some "  "⟩).location = "Rasa Chat Interface" ∧
    ((build_data ⟨some "Jo", none, some " a@b.c ", some "  "⟩).email.isSome = true ↔
      ∃ s, (some " a@b.c " : Option String) = some s ∧ pyStrip s ≠ "") ∧
    ((build_data ⟨some "Jo", none, some " a@b.c ", some "  "⟩).phone.isSome = true ↔
      ∃ s, (some "  " : Option String) = some s ∧ pyStrip s ≠ "") :=
  C8_build_payload ⟨some "Jo", none, some " a@b.c ", some "  "⟩ (by decide) (by decide)
